import Mathlib

/-!
Verification of the Arabic document repair engine (encoding codec, script
classifier, header-number normalizer, structural annotator, table mirror,
integrity validator) as a shallow embedding in Lean 4.

Text is modelled as `List Char`; Lean `Char` is a Unicode code point, matching
iteration over a Python `str`.
-/

namespace ArabicFix

/-- The Mojibake substitution table of `ArabicEncodingFixer.MOJIBAKE_MAP`
(src/encoding_fixer.py, lines 26-98), transcribed entry by entry in source
order.  Every key and every value is a single code point, exactly as in the
source dict. -/
def MOJIBAKE_MAP : List (Char × Char) :=
  [ ('Á', 'ء'),  -- Hamza
    ('Â', 'آ'),  -- Alef with madda
    ('Ã', 'أ'),  -- Alef with hamza above
    ('Ä', 'ؤ'),  -- Waw with hamza
    ('Å', 'إ'),  -- Alef with hamza below
    ('Æ', 'ئ'),  -- Ya with hamza
    ('Ç', 'ا'),  -- Alef
    ('È', 'ب'),  -- Ba
    ('É', 'ة'),  -- Ta marbuta
    ('Ê', 'ت'),  -- Ta
    ('Ë', 'ث'),  -- Tha
    ('Ì', 'ج'),  -- Jeem
    ('Í', 'ح'),  -- Ha
    ('Î', 'خ'),  -- Kha
    ('Ï', 'د'),  -- Dal
    ('Ð', 'ذ'),  -- Thal
    ('Ñ', 'ر'),  -- Ra
    ('Ò', 'ز'),  -- Zain
    ('Ó', 'س'),  -- Seen
    ('Ô', 'ش'),  -- Sheen
    ('Õ', 'ص'),  -- Sad
    ('Ö', 'ض'),  -- Dad
    ('Ø', 'ط'),  -- Ta
    ('Ù', 'ظ'),  -- Zha
    ('Ú', 'ع'),  -- Ain
    ('Û', 'غ'),  -- Ghain
    ('Ü', 'ـ'),  -- Tatweel (kashida)
    ('Ý', 'ف'),  -- Fa
    ('Þ', 'ق'),  -- Qaf
    ('ß', 'ك'),  -- Kaf
    ('á', 'ل'),  -- Lam
    ('ã', 'م'),  -- Meem
    ('ä', 'ن'),  -- Noon
    ('å', 'ه'),  -- Ha
    ('æ', 'و'),  -- Waw
    ('ì', 'ى'),  -- Alef maqsura
    ('í', 'ي'),  -- Ya
    ('À', 'آ'),  -- Alternative mapping for Alef with madda
    ('ð', 'ً'),  -- Fathatan
    ('ñ', 'ٌ'),  -- Dammatan
    ('ò', 'ٍ'),  -- Kasratan
    ('ó', 'َ'),  -- Fatha
    ('ô', 'ُ'),  -- Damma
    ('õ', 'ِ'),  -- Kasra
    ('ö', 'ّ'),  -- Shadda
    ('÷', 'ْ'),  -- Sukun
    ('°', '٠'),  -- Arabic digit 0
    ('±', '١'),  -- Arabic digit 1
    ('²', '٢'),  -- Arabic digit 2
    ('³', '٣'),  -- Arabic digit 3
    ('´', '٤'),  -- Arabic digit 4
    ('µ', '٥'),  -- Arabic digit 5
    ('¶', '٦'),  -- Arabic digit 6
    ('·', '٧'),  -- Arabic digit 7
    ('¸', '٨'),  -- Arabic digit 8
    ('¹', '٩'),  -- Arabic digit 9
    ('¡', '،'),  -- Arabic comma
    ('»', '؛'),  -- Arabic semicolon
    ('¿', '؟'),  -- Arabic question mark
    ('\xA0', ' ') ]  -- Non-breaking space to regular space

/-- Dictionary lookup in the Mojibake table.  The keys of the source dict are
pairwise distinct, so first-match lookup over the entry list coincides with
Python dict lookup. -/
def mojibakeLookup (c : Char) : Option Char :=
  (MOJIBAKE_MAP.find? fun p => p.1 == c).map fun p => p.2

/-- One step of `str.translate(str.maketrans(MOJIBAKE_MAP))`: a mapped
character is replaced by its image, any other character passes through. -/
def translateChar (c : Char) : Char :=
  (mojibakeLookup c).getD c

/-- `ArabicEncodingFixer.clean_text` (src/encoding_fixer.py, lines 104-117):
empty input is returned as is, otherwise every character is translated
through the Mojibake table. -/
def clean_text (t : List Char) : List Char :=
  if t.isEmpty then t else t.map translateChar

theorem mojibake_values_unmapped : ∀ p ∈ MOJIBAKE_MAP, mojibakeLookup p.2 = none := by
  decide

theorem translateChar_idem (c : Char) :
    translateChar (translateChar c) = translateChar c := by
  cases h : mojibakeLookup c with
  | none => simp [translateChar, h]
  | some v =>
    have hv : mojibakeLookup v = none := by
      obtain ⟨p, hp, hpv⟩ : ∃ p, MOJIBAKE_MAP.find? (fun q => q.1 == c) = some p ∧ p.2 = v := by
        unfold mojibakeLookup at h
        cases hf : MOJIBAKE_MAP.find? (fun q => q.1 == c) with
        | none => rw [hf] at h; simp at h
        | some p =>
          rw [hf] at h
          simp only [Option.map_some'] at h
          exact ⟨p, rfl, by injection h⟩
      have hmem := List.mem_of_find?_eq_some hp
      have hnone := mojibake_values_unmapped p hmem
      rwa [hpv] at hnone
    simp [translateChar, h, hv]

theorem map_translate_idem (l : List Char) :
    (l.map translateChar).map translateChar = l.map translateChar := by
  induction l with
  | nil => rfl
  | cons c cs ih => simp [ih, translateChar_idem]

/-- Claim C1: `clean_text` is idempotent on every string, and in the concrete
`MOJIBAKE_MAP` no value (mapped output character) is also a key, so
re-running the codec on already-fixed text never corrupts it. -/
theorem clean_idempotent_and_keys_values_disjoint :
    (∀ t : List Char, clean_text (clean_text t) = clean_text t)
    ∧ MOJIBAKE_MAP.all (fun p => MOJIBAKE_MAP.all fun q => p.2 != q.1) = true := by
  refine ⟨?_, by decide⟩
  intro t
  cases t with
  | nil => rfl
  | cons c cs =>
    show clean_text ((c :: cs).map translateChar) = (c :: cs).map translateChar
    show ite _ _ _ = _
    rw [if_neg (by simp)]
    exact map_translate_idem (c :: cs)

/-- Claim C8: any string none of whose characters is a key of the Mojibake
table passes through `clean_text` unchanged. -/
theorem clean_unmapped_passthrough :
    ∀ t : List Char, (∀ c ∈ t, mojibakeLookup c = none) → clean_text t = t := by
  intro t h
  cases t with
  | nil => rfl
  | cons c cs =>
    show ite _ _ _ = _
    rw [if_neg (by simp)]
    have : ∀ l : List Char, (∀ c ∈ l, mojibakeLookup c = none) → l.map translateChar = l := by
      intro l
      induction l with
      | nil => intro _; rfl
      | cons a as ih =>
        intro hl
        have ha : translateChar a = a := by
          simp [translateChar, hl a (List.mem_cons_self a as)]
        simp [ha, ih fun x hx => hl x (List.mem_cons_of_mem a hx)]
    exact this (c :: cs) h

/-- Witness for C8 at the concrete unmapped string "abc". -/
theorem clean_unmapped_passthrough_witness :
    clean_text "abc".data = "abc".data :=
  clean_unmapped_passthrough "abc".data (by decide)

/-- A code point of the Arabic Unicode block, the test
`'؀' <= char <= 'ۿ'` of `is_arabic_text`
(src/docx_format_fixer.py line 46, src/odf_handler.py line 38). -/
def isArabicChar (c : Char) : Bool :=
  decide (0x600 ≤ c.toNat ∧ c.toNat ≤ 0x6FF)

/-- `is_arabic_text` (src/docx_format_fixer.py lines 42-47, identical in
src/odf_handler.py lines 34-39): false on empty input, otherwise true iff the
Arabic code point count exceeds 30% of the length.  The Python source compares
`arabic_chars > len(text) * 0.3` in binary64 floating point; for every length
below 2^49 that comparison coincides with the exact rational comparison
`10 * arabic_chars > 3 * len` embedded here (when `len = 10*m` the product
`len * 0.3` rounds back to exactly `3*m`, and otherwise no integer lies within
the rounding error of `0.3 * len`). -/
def is_arabic_text (t : List Char) : Bool :=
  if t.isEmpty then false
  else decide (3 * t.length < 10 * t.countP isArabicChar)

/-- Whitespace for `str.strip()` / regex `\s`: the ASCII whitespace control
characters, the C1 separators, and the Unicode space separators stripped by
Python `str.strip`. -/
def isPySpace (c : Char) : Bool :=
  (decide (9 ≤ c.toNat) && decide (c.toNat ≤ 13)) || decide (c.toNat = 32)
  || (decide (28 ≤ c.toNat) && decide (c.toNat ≤ 31))
  || decide (c.toNat = 0x85) || decide (c.toNat = 0xA0)
  || decide (c.toNat = 0x1680)
  || (decide (0x2000 ≤ c.toNat) && decide (c.toNat ≤ 0x200A))
  || decide (c.toNat = 0x2028) || decide (c.toNat = 0x2029)
  || decide (c.toNat = 0x202F) || decide (c.toNat = 0x205F)
  || decide (c.toNat = 0x3000)

/-- Python `str.strip()`: drop leading and trailing whitespace. -/
def pyStrip (t : List Char) : List Char :=
  ((t.dropWhile isPySpace).reverse.dropWhile isPySpace).reverse

/-- The code point ranges of Unicode general category Nd (decimal digit),
Unicode 14.0 as shipped with Python 3.11: every block is a run of ten digits
except the mathematical alphanumeric digits at 1D7CE-1D7FF. -/
def ndRanges : List (Nat × Nat) :=
  [ (0x30, 0x39), (0x660, 0x669), (0x6F0, 0x6F9), (0x7C0, 0x7C9),
    (0x966, 0x96F), (0x9E6, 0x9EF), (0xA66, 0xA6F), (0xAE6, 0xAEF),
    (0xB66, 0xB6F), (0xBE6, 0xBEF), (0xC66, 0xC6F), (0xCE6, 0xCEF),
    (0xD66, 0xD6F), (0xDE6, 0xDEF), (0xE50, 0xE59), (0xED0, 0xED9),
    (0xF20, 0xF29), (0x1040, 0x1049), (0x1090, 0x1099), (0x17E0, 0x17E9),
    (0x1810, 0x1819), (0x1946, 0x194F), (0x19D0, 0x19D9), (0x1A80, 0x1A89),
    (0x1A90, 0x1A99), (0x1B50, 0x1B59), (0x1BB0, 0x1BB9), (0x1C40, 0x1C49),
    (0x1C50, 0x1C59), (0xA620, 0xA629), (0xA8D0, 0xA8D9), (0xA900, 0xA909),
    (0xA9D0, 0xA9D9), (0xA9F0, 0xA9F9), (0xAA50, 0xAA59), (0xABF0, 0xABF9),
    (0xFF10, 0xFF19), (0x104A0, 0x104A9), (0x10D30, 0x10D39),
    (0x11066, 0x1106F), (0x110F0, 0x110F9), (0x11136, 0x1113F),
    (0x111D0, 0x111D9), (0x112F0, 0x112F9), (0x11450, 0x11459),
    (0x114D0, 0x114D9), (0x11650, 0x11659), (0x116C0, 0x116C9),
    (0x11730, 0x11739), (0x118E0, 0x118E9), (0x11950, 0x11959),
    (0x11C50, 0x11C59), (0x11D50, 0x11D59), (0x11DA0, 0x11DA9),
    (0x16A60, 0x16A69), (0x16AC0, 0x16AC9),
    (0x16B50, 0x16B59), (0x1D7CE, 0x1D7FF), (0x1E140, 0x1E149),
    (0x1E2F0, 0x1E2F9), (0x1E950, 0x1E959),
    (0x1FBF0, 0x1FBF9) ]

/-- Decimal digit for the regex class `\d`: Python matches exactly the
characters of Unicode general category Nd, embedded here as the full Nd range
table. -/
def isPyDigit (c : Char) : Bool :=
  ndRanges.any fun r => decide (r.1 ≤ c.toNat) && decide (c.toNat ≤ r.2)

/-- Full match of the digit-group suffix `\d+(?:\.\d+)*`: the string splits on
'.' into one or more groups, each nonempty and all digits. -/
def digitGroups (s : List Char) : Bool :=
  (s.splitOn '.').all fun g => !g.isEmpty && g.all isPyDigit

/-- Anchored match of pattern 1, `^(.+?)\.(\d+(?:\.\d+)*)$`
(src/test_number_fix.py line 32, src/docx_format_fixer.py line 97).  The lazy
group `(.+?)` takes the shortest nonempty prefix (scanning left to right)
that is followed by a literal '.' and a digit-group suffix reaching the end;
`.` never matches a newline, so a '\n' aborts the scan.  Returns the two
captured groups. -/
def pat1Aux (acc : List Char) : List Char → Option (List Char × List Char)
  | [] => none
  | c :: cs =>
    if c == '.' && !acc.isEmpty && digitGroups cs then some (acc.reverse, cs)
    else if c == '\n' then none
    else pat1Aux (c :: acc) cs

/-- Anchored match of pattern 2, `^(.+?)\s+\.(\d+(?:\.\d+)*)$`
(src/test_number_fix.py line 35, src/docx_format_fixer.py line 100).  For the
shortest nonempty newline-free prefix, `\s+` greedily takes the maximal
whitespace run (a shorter run would end on a whitespace character, never on
the required literal '.'), which must be nonempty and followed by '.' and a
digit-group suffix reaching the end. -/
def pat2Aux (acc : List Char) : List Char → Option (List Char × List Char)
  | [] => none
  | c :: cs =>
    if !acc.isEmpty && isPySpace c then
      match (c :: cs).dropWhile isPySpace with
      | '.' :: num =>
        if digitGroups num then some (acc.reverse, num)
        else if c == '\n' then none else pat2Aux (c :: acc) cs
      | _ => if c == '\n' then none else pat2Aux (c :: acc) cs
    else if c == '\n' then none else pat2Aux (c :: acc) cs

/-- `re.match(pattern1, text) or re.match(pattern2, text)`
(src/test_number_fix.py line 37): pattern 1 is tried first and wins when it
matches. -/
def headerMatch (t : List Char) : Option (List Char × List Char) :=
  match pat1Aux [] t with
  | some r => some r
  | none => pat2Aux [] t

/-- `fix_numbered_header` (src/test_number_fix.py lines 27-51): strip the
input, try the two header patterns, guard on the label being Arabic, and on
success rebuild the text as `"<number>. <label>"`. -/
def fix_numbered_header (text : List Char) : List Char × Bool :=
  let t := pyStrip text
  match headerMatch t with
  | some (g1, g2) =>
    let label := pyStrip g1
    let number := pyStrip g2
    if !is_arabic_text label then (t, false)
    else (number ++ '.' :: ' ' :: label, true)
  | none => (t, false)

theorem pySpace_not_arabic (c : Char) (h : isPySpace c = true) :
    isArabicChar c = false := by
  unfold isPySpace at h
  unfold isArabicChar
  simp only [Bool.or_eq_true, Bool.and_eq_true, decide_eq_true_eq] at h
  simp only [decide_eq_false_iff_not, not_and, not_le]
  omega

/-- Claim C3: `is_arabic_text` is true iff strictly more than 30% of the code
points lie in U+0600-U+06FF (exact rational comparison `10*count > 3*len`);
empty and whitespace-only input give false, and a string with exactly 30%
Arabic code points is classified non-Arabic. -/
theorem is_arabic_threshold (t : List Char) :
    (is_arabic_text t = true ↔ 3 * t.length < 10 * t.countP isArabicChar)
    ∧ is_arabic_text [] = false
    ∧ ((∀ c ∈ t, isPySpace c = true) → is_arabic_text t = false)
    ∧ (10 * t.countP isArabicChar = 3 * t.length → is_arabic_text t = false) := by
  refine ⟨?_, by decide, ?_, ?_⟩
  · unfold is_arabic_text
    cases t with
    | nil => simp
    | cons c cs => simp
  · intro hws
    have hcount : t.countP isArabicChar = 0 := by
      rw [List.countP_eq_zero]
      intro a ha
      simp [pySpace_not_arabic a (hws a ha)]
    unfold is_arabic_text
    rcases t with _ | ⟨c, cs⟩
    · rfl
    · rw [if_neg (by simp)]
      simp [hcount]
  · intro heq
    unfold is_arabic_text
    rcases t with _ | ⟨c, cs⟩
    · rfl
    · rw [if_neg (by simp)]
      simp only [decide_eq_false_iff_not, not_lt]
      omega

/-- Witness for C3: a whitespace-only string and a string with exactly 30%
Arabic code points (3 of 10) are both classified non-Arabic. -/
theorem is_arabic_threshold_witness :
    is_arabic_text "   ".data = false ∧ is_arabic_text "اااabcdefg".data = false :=
  ⟨(is_arabic_threshold "   ".data).2.2.1 (by decide),
   (is_arabic_threshold "اااabcdefg".data).2.2.2 (by decide)⟩

/-- Claim C4: on any trimmed input matched by one of the two header patterns,
the normalizer rebuilds the text as "<number>. <label>" (the digit group kept
whole) and reports changed = true exactly when the trimmed label is classified
Arabic; with a non-Arabic label it reports changed = false. -/
theorem normalize_matched_header (s g1 g2 : List Char)
    (hs : pyStrip s = s) (hm : headerMatch s = some (g1, g2)) :
    (is_arabic_text (pyStrip g1) = true →
      fix_numbered_header s = (pyStrip g2 ++ '.' :: ' ' :: pyStrip g1, true))
    ∧ (is_arabic_text (pyStrip g1) = false →
      fix_numbered_header s = (s, false)) := by
  constructor <;> intro h <;> simp [fix_numbered_header, hs, hm, h]

/-- Witness for C4 at the spec's own vectors: an Arabic numbered header is
reordered, a non-Arabic one is guarded. -/
theorem normalize_matched_header_witness :
    fix_numbered_header "النطاق.2".data = ("2. النطاق".data, true)
    ∧ fix_numbered_header "file.1".data = ("file.1".data, false) := by
  constructor
  · have h := (normalize_matched_header "النطاق.2".data "النطاق".data "2".data
      (by decide) (by decide)).1 (by decide)
    rw [h]; decide
  · exact (normalize_matched_header "file.1".data "file".data "1".data
      (by decide) (by decide)).2 (by decide)

/-- Claim C5 counterexample: on " ab " neither header pattern matches, yet
the normalizer returns the stripped text "ab", not the original input
character for character. -/
theorem normalize_unmatched_counterexample :
    fix_numbered_header " ab ".data = ("ab".data, false)
    ∧ "ab".data ≠ " ab ".data := by decide

/-- Claim C5 (amended): when neither pattern matches the stripped input, the
normalizer reports changed = false and returns the stripped text; this equals
the original input character for character exactly when the input carries no
surrounding whitespace. -/
theorem normalize_unmatched_unchanged (s : List Char)
    (hm : headerMatch (pyStrip s) = none) :
    fix_numbered_header s = (pyStrip s, false)
    ∧ (pyStrip s = s → fix_numbered_header s = (s, false)) := by
  refine ⟨by simp [fix_numbered_header, hm], fun hs => ?_⟩
  rw [hs] at hm
  simp [fix_numbered_header, hs, hm]

/-- Witness for C5 (amended) at "example.txt", which matches neither
pattern. -/
theorem normalize_unmatched_unchanged_witness :
    fix_numbered_header "example.txt".data = ("example.txt".data, false) :=
  (normalize_unmatched_unchanged "example.txt".data (by decide)).2 (by decide)

/-- Paragraph alignment, `WD_ALIGN_PARAGRAPH`. -/
inductive Alignment
  | left
  | center
  | right
  | justify
deriving DecidableEq

/-- A text run: its text, its run-level RTL flag (`w:rtl` in `rPr`), and the
font attributes read and re-applied by the header rewrite. -/
structure Run where
  text : List Char
  rtl : Bool
  fontName : Option (List Char)
  fontSize : Option Nat
  bold : Option Bool
  italic : Option Bool
deriving DecidableEq

/-- A paragraph: its runs, the `w:bidi` flag in `pPr`, its alignment, whether
`pPr` carries a `w:numPr` list-numbering element, its style name, and the
spacing fields touched by the bullet fixer. -/
structure Paragraph where
  runs : List Run
  bidi : Bool
  alignment : Option Alignment
  hasNumPr : Bool
  styleName : List Char
  spaceBefore : Option Nat
  spaceAfter : Option Nat
  lineSpacingSingle : Bool
deriving DecidableEq

/-- `paragraph.text` in python-docx: the concatenation of the run texts. -/
def Paragraph.text (p : Paragraph) : List Char :=
  (p.runs.map Run.text).flatten

/-- A table cell: its paragraph sequence. -/
structure Cell where
  paragraphs : List Paragraph
deriving DecidableEq

/-- `cell.text` in python-docx: the paragraph texts joined with newlines. -/
def Cell.text (c : Cell) : List Char :=
  (List.intersperse ['\n'] (c.paragraphs.map Paragraph.text)).flatten

/-- A table: its rows, each an ordered cell sequence. -/
structure Table where
  rows : List (List Cell)
deriving DecidableEq

/-- A document: its top-level paragraphs and tables (as enumerated by
`doc.paragraphs` and `doc.tables`). -/
structure Document where
  paragraphs : List Paragraph
  tables : List Table
deriving DecidableEq

/-- The per-document fix tally of `ArabicDocxFixer.fix_document`
(src/docx_format_fixer.py lines 379-386). -/
structure DocFixes where
  rtl_paragraphs : Nat
  alignments : Nat
  fonts : Nat
  table_cells : Nat
  bullets : Nat
  encoding : Nat
deriving DecidableEq

/-- The structural fingerprint of
`ArabicDocxFixer.get_document_content_summary`
(src/docx_format_fixer.py lines 255-267). -/
structure ContentSummary where
  paragraph_count : Nat
  total_text_length : Nat
  table_count : Nat
  table_cells_count : Nat
deriving DecidableEq

def get_document_content_summary (doc : Document) : ContentSummary :=
  { paragraph_count := doc.paragraphs.length
    total_text_length := (doc.paragraphs.map fun p => p.text.length).sum
    table_count := doc.tables.length
    table_cells_count := (doc.tables.map fun t => (t.rows.map List.length).sum).sum }

/-- The summary of `ODFHandler.get_document_summary`
(src/odf_handler.py lines 128-143). -/
structure ODFSummary where
  paragraph_count : Nat
  total_text_length : Nat
  table_count : Nat
deriving DecidableEq

/-- The DOCX `content_preserved` comparison of `ArabicDocxFixer.fix_document`
(src/docx_format_fixer.py lines 401-405): all of paragraph count, total text
length and table count must agree. -/
def docx_content_preserved (a b : ContentSummary) : Bool :=
  a.paragraph_count == b.paragraph_count
  && a.total_text_length == b.total_text_length
  && a.table_count == b.table_count

/-- The ODF `content_preserved` comparison of `ODFHandler.fix_document`
(src/odf_handler.py lines 182-185): only paragraph count and table count must
agree. -/
def odf_content_preserved (a b : ODFSummary) : Bool :=
  a.paragraph_count == b.paragraph_count && a.table_count == b.table_count

/-- `ArabicDocxFixer.set_rtl_paragraph` (src/docx_format_fixer.py lines
49-58): add the `w:bidi` flag if not already present. -/
def set_rtl_paragraph (p : Paragraph) : Paragraph :=
  if p.bidi then p else { p with bidi := true }

/-- `ArabicDocxFixer.set_rtl_run` (src/docx_format_fixer.py lines 60-69):
add the run `w:rtl` flag if not already present. -/
def set_rtl_run (r : Run) : Run :=
  if r.rtl then r else { r with rtl := true }

/-- One run of the encoding pass: a nonempty run text is replaced by its
cleaned form. -/
def cleanRun (r : Run) : Run :=
  if r.text.isEmpty then r else { r with text := clean_text r.text }

/-- `ArabicDocxFixer.fix_text_encoding_in_paragraph`
(src/docx_format_fixer.py lines 71-88): clean every nonempty run text; bump
the encoding counter when any run actually changed. -/
def fix_text_encoding_in_paragraph (p : Paragraph) (fixes : DocFixes) :
    Paragraph × DocFixes :=
  if p.runs.isEmpty then (p, fixes)
  else
    let changed := p.runs.any fun r => !r.text.isEmpty && clean_text r.text != r.text
    ({ p with runs := p.runs.map cleanRun },
     if changed then { fixes with encoding := fixes.encoding + 1 } else fixes)

/-- `ArabicDocxFixer.fix_numbered_headers` (src/docx_format_fixer.py lines
90-141), the live-paragraph header rewrite: match the stripped paragraph text
against the two patterns, guard on an Arabic label, and on success collapse
the runs into a single run carrying the rebuilt text and the first run's font
attributes (a paragraph without runs falls through unchanged). -/
def fix_numbered_headers (p : Paragraph) : Paragraph × Bool :=
  let t := pyStrip p.text
  match headerMatch t with
  | none => (p, false)
  | some (g1, g2) =>
    let label := pyStrip g1
    let number := pyStrip g2
    if !is_arabic_text label then (p, false)
    else
      match p.runs with
      | [] => (p, false)
      | first :: _ =>
        ({ p with runs := [{ text := number ++ '.' :: ' ' :: label
                             rtl := first.rtl
                             fontName := first.fontName
                             fontSize := first.fontSize
                             bold := first.bold
                             italic := first.italic }] }, true)

/-- The alignment step of `fix_paragraph_formatting`
(src/docx_format_fixer.py lines 164-167): set right alignment if not already
right. -/
def force_right_alignment (p : Paragraph) : Paragraph :=
  if p.alignment ≠ some Alignment.right
  then { p with alignment := some Alignment.right } else p

/-- The list-numbering step of `fix_paragraph_formatting`
(src/docx_format_fixer.py lines 169-178): a paragraph with `w:numPr` gets the
`w:bidi` flag if it is still missing. -/
def ensure_numbering_bidi (p : Paragraph) : Paragraph :=
  if p.hasNumPr && !p.bidi then { p with bidi := true } else p

/-- The run-level step of `fix_paragraph_formatting`
(src/docx_format_fixer.py lines 180-184): when the paragraph was classified
Arabic, set every run's RTL flag. -/
def set_runs_rtl_if_arabic (isAr : Bool) (p : Paragraph) : Paragraph :=
  if isAr then { p with runs := p.runs.map set_rtl_run } else p

/-- The structural annotation block of `fix_paragraph_formatting`
(src/docx_format_fixer.py lines 159-184), the spec's StructuralAnnotator:
set the paragraph `w:bidi` flag, force right alignment, ensure list numbering
is flagged bidi, and — only for Arabic-classified text — set every run's RTL
flag. -/
def structural_annotate (p : Paragraph) : Paragraph :=
  set_runs_rtl_if_arabic (is_arabic_text p.text)
    (ensure_numbering_bidi (force_right_alignment (set_rtl_paragraph p)))

/-- `ArabicDocxFixer.fix_paragraph_formatting` (src/docx_format_fixer.py
lines 143-184): skip blank paragraphs; clean encoding first; classify; try
the header rewrite on Arabic paragraphs; then set bidi, right alignment,
list-numbering bidi, and run-level RTL for Arabic paragraphs, with the
corresponding counters. -/
def fix_paragraph_formatting (fixEncoding : Bool) (p : Paragraph)
    (fixes : DocFixes) : Paragraph × DocFixes :=
  if (pyStrip p.text).isEmpty then (p, fixes)
  else
    let s1 := if fixEncoding then fix_text_encoding_in_paragraph p fixes else (p, fixes)
    let isAr := is_arabic_text s1.1.text
    let s2 :=
      if isAr then
        let r := fix_numbered_headers s1.1
        (r.1, if r.2 then { s1.2 with fonts := s1.2.fonts + 1 } else s1.2)
      else s1
    let p3 := set_rtl_paragraph s2.1
    let f3 := { s2.2 with rtl_paragraphs := s2.2.rtl_paragraphs + 1 }
    let s4 :=
      if p3.alignment ≠ some Alignment.right then
        ({ p3 with alignment := some Alignment.right },
         { f3 with alignments := f3.alignments + 1 })
      else (p3, f3)
    let p5 := if s4.1.hasNumPr && !s4.1.bidi then { s4.1 with bidi := true } else s4.1
    let p6 := if isAr then { p5 with runs := p5.runs.map set_rtl_run } else p5
    (p6, s4.2)

/-- `ArabicDocxFixer.fix_bullet_formatting` (src/docx_format_fixer.py lines
240-253): on paragraphs whose style name starts with "List" or whose text
contains a bullet glyph, if the text is Arabic, set bidi, force right
alignment, and normalize spacing. -/
def fix_bullet_formatting (p : Paragraph) (fixes : DocFixes) :
    Paragraph × DocFixes :=
  if p.styleName.take 4 == "List".data || p.text.contains '•' then
    if is_arabic_text p.text then
      let p1 := set_rtl_paragraph p
      ({ p1 with alignment := some Alignment.right
                 spaceBefore := some 0
                 spaceAfter := some 6
                 lineSpacingSingle := true },
       { fixes with bullets := fixes.bullets + 1 })
    else (p, fixes)
  else (p, fixes)

/-- `ArabicDocxFixer.reverse_table_columns` (src/docx_format_fixer.py lines
186-214): in every row with more than one cell, reverse the cell sequence in
place. -/
def reverse_table_columns (t : Table) : Table :=
  { rows := t.rows.map fun row => if row.length ≤ 1 then row else row.reverse }

/-- The per-table Arabic-content check of `fix_table_formatting`
(src/docx_format_fixer.py lines 218-226): some cell's stripped text is
classified Arabic. -/
def tableHasArabic (t : Table) : Bool :=
  t.rows.any fun row => row.any fun c => is_arabic_text (pyStrip c.text)

/-- The mirroring step of `fix_table_formatting` (src/docx_format_fixer.py
lines 228-231): reverse the columns exactly when the table has Arabic
content. -/
def mirror_step (t : Table) : Table :=
  if tableHasArabic t then reverse_table_columns t else t

/-- Map a counter-threading transform across a list, like the Python loops
that mutate `doc_fixes` while visiting elements in order. -/
def mapWithFixes {α : Type} (f : α → DocFixes → α × DocFixes) :
    List α → DocFixes → List α × DocFixes
  | [], fixes => ([], fixes)
  | x :: xs, fixes =>
    let s := f x fixes
    let rest := mapWithFixes f xs s.2
    (s.1 :: rest.1, rest.2)

/-- `ArabicDocxFixer.fix_table_formatting` (src/docx_format_fixer.py lines
216-238): mirror the columns when the table has Arabic content (bumping the
table counter once), then run the paragraph fixer over every paragraph of
every cell. -/
def fix_table_formatting (fixEncoding : Bool) (t : Table) (fixes : DocFixes) :
    Table × DocFixes :=
  let s1 :=
    if tableHasArabic t then
      (mirror_step t, { fixes with table_cells := fixes.table_cells + 1 })
    else (t, fixes)
  let s2 := mapWithFixes
    (fun row fr => mapWithFixes
      (fun c fc =>
        let s := mapWithFixes (fix_paragraph_formatting fixEncoding) c.paragraphs fc
        ({ paragraphs := s.1 }, s.2))
      row fr)
    s1.1.rows s1.2
  ({ rows := s2.1 }, s2.2)

/-- The in-memory transform and validation of `ArabicDocxFixer.fix_document`
(src/docx_format_fixer.py lines 372-405): fingerprint, run the paragraph and
bullet fixers over every top-level paragraph and the table fixer over every
table, re-fingerprint, and compare. -/
def fix_document_transform (fixEncoding : Bool) (doc : Document) :
    Document × DocFixes × Bool :=
  let original := get_document_content_summary doc
  let s1 := mapWithFixes
    (fun p fx =>
      let s := fix_paragraph_formatting fixEncoding p fx
      fix_bullet_formatting s.1 s.2)
    doc.paragraphs ⟨0, 0, 0, 0, 0, 0⟩
  let s2 := mapWithFixes (fix_table_formatting fixEncoding) doc.tables s1.2
  let doc2 : Document := { paragraphs := s1.1, tables := s2.1 }
  let fixed := get_document_content_summary doc2
  (doc2, s2.2, docx_content_preserved original fixed)

/-- The codec step alone, applied to every run of every paragraph of a
document (as `fix_text_encoding_in_paragraph` does, without the counters). -/
def clean_paragraph (p : Paragraph) : Paragraph :=
  { p with runs := p.runs.map cleanRun }

def clean_document (doc : Document) : Document :=
  { paragraphs := doc.paragraphs.map clean_paragraph
    tables := doc.tables.map fun t =>
      { rows := t.rows.map fun r => r.map fun c =>
          { paragraphs := c.paragraphs.map clean_paragraph } } }

/-- The structural annotation alone, applied to every paragraph of a
document, top-level and inside table cells. -/
def annotate_document (doc : Document) : Document :=
  { paragraphs := doc.paragraphs.map structural_annotate
    tables := doc.tables.map fun t =>
      { rows := t.rows.map fun r => r.map fun c =>
          { paragraphs := c.paragraphs.map structural_annotate } } }

/-- A single-run paragraph with default flags and the "Normal" style, as a
freshly opened document presents it. -/
def mkParagraph (s : String) : Paragraph :=
  { runs := [{ text := s.data, rtl := false, fontName := none,
               fontSize := none, bold := none, italic := none }]
    bidi := false
    alignment := none
    hasNumPr := false
    styleName := "Normal".data
    spaceBefore := none
    spaceAfter := none
    lineSpacingSingle := false }

def mkCell (s : String) : Cell := ⟨[mkParagraph s]⟩

/-- Claim C2 counterexample: two fingerprints with identical paragraph and
table counts but different total text lengths fail the DOCX comparison, so
total character count is not merely advisory there. -/
theorem integrity_advisory_counterexample :
    docx_content_preserved ⟨1, 5, 0, 0⟩ ⟨1, 7, 0, 0⟩ = false
    ∧ (⟨1, 5, 0, 0⟩ : ContentSummary).paragraph_count
        = (⟨1, 7, 0, 0⟩ : ContentSummary).paragraph_count
    ∧ (⟨1, 5, 0, 0⟩ : ContentSummary).table_count
        = (⟨1, 7, 0, 0⟩ : ContentSummary).table_count := by decide

/-- Claim C2 (amended): the ODF comparison passes iff paragraph count and
table count agree, with total character count advisory; the DOCX comparison
additionally requires the total text length to agree. -/
theorem integrity_comparison_semantics (a b : ODFSummary) (c d : ContentSummary) :
    (odf_content_preserved a b = true ↔
      a.paragraph_count = b.paragraph_count ∧ a.table_count = b.table_count)
    ∧ (docx_content_preserved c d = true ↔
      c.paragraph_count = d.paragraph_count
      ∧ c.total_text_length = d.total_text_length
      ∧ c.table_count = d.table_count) := by
  constructor <;> simp [odf_content_preserved, docx_content_preserved, and_assoc]

/-- Claim C6: when a table has an Arabic-classified cell, every row with more
than one cell has its cell sequence reversed (the cell at index j moves to
index n-1-j, no cell merged or dropped) and rows with at most one cell stay;
a table with no Arabic-classified cell is left entirely unchanged. -/
theorem table_mirroring (t : Table) (i : Nat) (row : List Cell)
    (hrow : t.rows[i]? = some row) :
    (mirror_step t).rows.length = t.rows.length
    ∧ (tableHasArabic t = false → mirror_step t = t)
    ∧ (tableHasArabic t = true →
        (row.length ≤ 1 → (mirror_step t).rows[i]? = some row)
        ∧ (1 < row.length →
            (mirror_step t).rows[i]? = some row.reverse
            ∧ row.reverse.length = row.length
            ∧ (∀ j, j < row.length →
                row.reverse[row.length - 1 - j]? = row[j]?)
            ∧ row.reverse.Perm row)) := by
  refine ⟨?_, fun h => by simp [mirror_step, h], fun h => ?_⟩
  · unfold mirror_step reverse_table_columns
    split <;> simp
  · have hget : (mirror_step t).rows[i]? =
        some (if row.length ≤ 1 then row else row.reverse) := by
      unfold mirror_step reverse_table_columns
      rw [if_pos h]
      simp [List.getElem?_map, hrow]
    refine ⟨fun hle => by rwa [if_pos hle] at hget, fun hgt => ?_⟩
    refine ⟨by rwa [if_neg (by omega)] at hget, by simp, fun j hj => ?_, List.reverse_perm row⟩
    have hlt : row.length - 1 - j < row.length := by omega
    rw [List.getElem?_reverse (by simpa using hlt)]
    congr 1
    omega

def rowC6 : List Cell := [mkCell "العراق", mkCell "b", mkCell "c"]

def tableC6 : Table := ⟨[rowC6, [mkCell "d"]]⟩

/-- Witness for C6: in a concrete Arabic table, the three-cell row comes back
reversed. -/
theorem table_mirroring_witness :
    (mirror_step tableC6).rows[0]? = some rowC6.reverse :=
  (((table_mirroring tableC6 0 rowC6 (by decide)).2.2 (by decide)).2 (by decide)).1

theorem set_rtl_run_text (r : Run) : (set_rtl_run r).text = r.text := by
  unfold set_rtl_run
  split <;> rfl

theorem map_eq_of_forall {α β : Type} {f g : α → β} (h : ∀ a, f a = g a) :
    ∀ l : List α, l.map f = l.map g := by
  intro l
  induction l with
  | nil => rfl
  | cons a as ih => simp [h a, ih]

theorem map_text_set_rtl (l : List Run) :
    (l.map set_rtl_run).map Run.text = l.map Run.text := by
  induction l with
  | nil => rfl
  | cons r rs ih => simp [ih, set_rtl_run_text]

theorem set_rtl_paragraph_runs (p : Paragraph) :
    (set_rtl_paragraph p).runs = p.runs := by
  unfold set_rtl_paragraph
  split <;> rfl

theorem force_right_alignment_runs (p : Paragraph) :
    (force_right_alignment p).runs = p.runs := by
  unfold force_right_alignment
  split <;> rfl

theorem ensure_numbering_bidi_runs (p : Paragraph) :
    (ensure_numbering_bidi p).runs = p.runs := by
  unfold ensure_numbering_bidi
  split <;> rfl

theorem set_runs_rtl_if_arabic_runTexts (b : Bool) (p : Paragraph) :
    (set_runs_rtl_if_arabic b p).runs.map Run.text = p.runs.map Run.text := by
  unfold set_runs_rtl_if_arabic
  split
  · exact map_text_set_rtl p.runs
  · rfl

theorem structural_annotate_runTexts (p : Paragraph) :
    (structural_annotate p).runs.map Run.text = p.runs.map Run.text := by
  unfold structural_annotate
  rw [set_runs_rtl_if_arabic_runTexts, ensure_numbering_bidi_runs,
    force_right_alignment_runs, set_rtl_paragraph_runs]

theorem structural_annotate_text (p : Paragraph) :
    (structural_annotate p).text = p.text := by
  unfold Paragraph.text
  rw [structural_annotate_runTexts]

/-- Claim C7: the structural annotation alone changes no run text and leaves
the document fingerprint (paragraph count, total text length, table count,
cell count) unchanged. -/
theorem annotator_frame (doc : Document) :
    get_document_content_summary (annotate_document doc)
      = get_document_content_summary doc
    ∧ (annotate_document doc).paragraphs.map (fun p => p.runs.map Run.text)
      = doc.paragraphs.map (fun p => p.runs.map Run.text)
    ∧ (annotate_document doc).tables.map
        (fun t => t.rows.map fun r => r.map fun c =>
          c.paragraphs.map fun p => p.runs.map Run.text)
      = doc.tables.map fun t => t.rows.map fun r => r.map fun c =>
          c.paragraphs.map fun p => p.runs.map Run.text := by
  refine ⟨?_, ?_, ?_⟩
  · unfold get_document_content_summary annotate_document
    dsimp only
    rw [ContentSummary.mk.injEq]
    refine ⟨by simp, ?_, by simp, ?_⟩
    · simp only [List.map_map]
      refine congrArg List.sum (map_eq_of_forall (fun p => ?_) _)
      simp only [Function.comp_apply]
      rw [structural_annotate_text]
    · simp only [List.map_map]
      refine congrArg List.sum (map_eq_of_forall (fun t => ?_) _)
      dsimp only [Function.comp_apply]
      refine congrArg List.sum ?_
      simp only [List.map_map]
      refine map_eq_of_forall (fun r => ?_) _
      simp
  · unfold annotate_document
    dsimp only
    simp only [List.map_map]
    refine map_eq_of_forall (fun p => ?_) _
    simp only [Function.comp_apply]
    exact structural_annotate_runTexts p
  · unfold annotate_document
    dsimp only
    simp only [List.map_map]
    refine map_eq_of_forall (fun t => ?_) _
    dsimp only [Function.comp_apply]
    simp only [List.map_map]
    refine map_eq_of_forall (fun r => ?_) _
    dsimp only [Function.comp_apply]
    simp only [List.map_map]
    refine map_eq_of_forall (fun c => ?_) _
    dsimp only [Function.comp_apply]
    simp only [List.map_map]
    refine map_eq_of_forall (fun p => ?_) _
    dsimp only [Function.comp_apply]
    exact structural_annotate_runTexts p

def docC9 : Document := ⟨[mkParagraph "ÂÈ ÇáÚÑÇÞ"], []⟩

/-- Claim C9: running the full in-memory pipeline on a document whose single
paragraph reads "ÂÈ ÇáÚÑÇÞ" yields the paragraph text "آب العراق" with the
RTL flag set and right alignment, and the counters report at least one
encoding fix and at least one RTL paragraph. -/
theorem pipeline_end_to_end :
    (fix_document_transform true docC9).1.paragraphs.map Paragraph.text
      = ["آب العراق".data]
    ∧ (fix_document_transform true docC9).1.paragraphs.map Paragraph.bidi = [true]
    ∧ (fix_document_transform true docC9).1.paragraphs.map Paragraph.alignment
      = [some Alignment.right]
    ∧ 1 ≤ (fix_document_transform true docC9).2.1.encoding
    ∧ 1 ≤ (fix_document_transform true docC9).2.1.rtl_paragraphs := by decide

theorem clean_text_length (t : List Char) : (clean_text t).length = t.length := by
  unfold clean_text
  split
  · rfl
  · exact List.length_map t translateChar

theorem cleanRun_text_length (r : Run) :
    (cleanRun r).text.length = r.text.length := by
  unfold cleanRun
  split
  · rfl
  · exact clean_text_length r.text

theorem clean_paragraph_text_length (p : Paragraph) :
    (clean_paragraph p).text.length = p.text.length := by
  unfold clean_paragraph Paragraph.text
  simp only [List.map_map, List.length_flatten]
  exact congrArg List.sum (map_eq_of_forall (fun r => by
    simp [Function.comp, cleanRun_text_length]) _)

/-- Claim C10: `clean_text` preserves string length (every concrete map entry
is one code point to one code point), so the codec step alone never changes
the fingerprint's total character count. -/
theorem clean_length_preserving :
    (∀ t : List Char, (clean_text t).length = t.length)
    ∧ ∀ doc : Document,
        (get_document_content_summary (clean_document doc)).total_text_length
          = (get_document_content_summary doc).total_text_length := by
  refine ⟨clean_text_length, fun doc => ?_⟩
  unfold get_document_content_summary clean_document
  simp only [List.map_map]
  exact congrArg List.sum (map_eq_of_forall (fun p => by
    simp [Function.comp, clean_paragraph_text_length]) _)

end ArabicFix
